import Mathlib

/-!
Shallow embedding of `pkg/remote/oci.go`: the OCI remote resource loader of
docker compose. Pure functions model the Go functions directly; the effectful
parts (environment variable, filesystem, registry resolver, reference parsing,
JSON unmarshalling, cache-directory provisioning) are modelled by explicit
state passing and by oracle functions supplied as parameters, so that every
definition is executable on concrete inputs.
-/

namespace OciRemote

/-- The environment variable name `OCI_REMOTE_ENABLED` in the source. -/
def OCI_REMOTE_ENABLED : String := "COMPOSE_EXPERIMENTAL_OCI_REMOTE"

/-- The URI scheme constant `OciPrefix = "oci://"` in the source. -/
def ociPfx : String := "oci://"

/-- Modelled from the spec: the compose-project artifact type constant lives in
the internal `ocipush` package, outside the sources given; the spec calls it
"the literal compose-project artifact type". The claims depend only on it being
a fixed nonempty literal distinct from the media-type constants below. -/
def ComposeProjectArtifactType : String := "application/vnd.docker.compose.project"

/-- Modelled from the spec: the media type marking a compose YAML layer
(`ocipush.ComposeYAMLMediaType`). -/
def ComposeYAMLMediaType : String := "application/vnd.docker.compose.file+yaml"

/-- Modelled from the spec: the media type marking a compose env-file layer
(`ocipush.ComposeEnvFileMediaType`). -/
def ComposeEnvFileMediaType : String := "application/vnd.docker.compose.envfile"

/-- Modelled from the spec: the "empty config" sentinel media type
(`ocipush.ComposeEmptyConfigMediaType`), used by legacy artifacts. -/
def ComposeEmptyConfigMediaType : String := "application/vnd.docker.compose.empty-config"

/-- Go `strconv.ParseBool`: accepts exactly 1, t, T, TRUE, true, True,
0, f, F, FALSE, false, False; anything else is a syntax error (`none`). -/
def parseBool (s : String) : Option Bool :=
  if s = "1" ∨ s = "t" ∨ s = "T" ∨ s = "TRUE" ∨ s = "true" ∨ s = "True" then some true
  else if s = "0" ∨ s = "f" ∨ s = "F" ∨ s = "FALSE" ∨ s = "false" ∨ s = "False" then some false
  else none

/-- The error text Go produces for `strconv.ParseBool` syntax errors, as it
appears after the `%w` wrapping in `ociRemoteLoaderEnabled`. -/
def parseBoolErrMsg (v : String) : String :=
  "strconv.ParseBool: parsing \"" ++ v ++ "\": invalid syntax"

/-- `ociRemoteLoaderEnabled` from the source. The argument is the value of
`os.Getenv(OCI_REMOTE_ENABLED)`; Go returns `""` for an unset variable, and the
source treats `""` as unset (default enabled). -/
def ociRemoteLoaderEnabled (v : String) : Except String Bool :=
  if v ≠ "" then
    match parseBool v with
    | none =>
        .error ("COMPOSE_EXPERIMENTAL_OCI_REMOTE environment variable expects boolean value: "
          ++ parseBoolErrMsg v)
    | some enabled => .ok enabled
  else .ok true

/-- An OCI descriptor (`v1.Descriptor`): the fields `oci.go` reads.
Digests are opaque strings; `annotations` is the Go string-keyed map,
modelled as an association list (newest binding first). -/
structure Descriptor where
  digest : String
  mediaType : String
  annotations : List (String × String)
deriving DecidableEq, Repr

/-- An OCI manifest (`v1.Manifest`): the fields `oci.go` reads
(`ArtifactType`, `Config.MediaType`, `Layers`). -/
structure Manifest where
  artifactType : String
  configMediaType : String
  layers : List Descriptor
deriving DecidableEq, Repr

/-- Go map read `layer.Annotations[k]` in its `v, ok :=` form. -/
def annGet (layer : Descriptor) (k : String) : Option String :=
  List.lookup k layer.annotations

/-- Go map read `layer.Annotations[k]` in the single-value form, which yields
the empty string when the key is absent. -/
def annGetD (layer : Descriptor) (k : String) : String :=
  (annGet layer k).getD ""

/-- Filesystem model: the set of directories that exist, and a map from file
path to current content (association list, newest binding first). -/
structure SysFS where
  dirs : List String
  files : List (String × String)
deriving DecidableEq, Repr

/-- `os.Stat` existence check for a directory. -/
def SysFS.dirExists (fs : SysFS) (d : String) : Bool :=
  fs.dirs.contains d

/-- `os.MkdirAll`: the directory exists afterwards (permissions elided). -/
def SysFS.mkdirAll (fs : SysFS) (d : String) : SysFS :=
  { fs with dirs := d :: fs.dirs }

/-- `os.Create`: the file exists afterwards and is truncated to empty. -/
def SysFS.createFile (fs : SysFS) (p : String) : SysFS :=
  { fs with files := (p, "") :: fs.files }

/-- Content of the file at `p`, `none` if no such file. -/
def SysFS.getFile (fs : SysFS) (p : String) : Option String :=
  List.lookup p fs.files

/-- A `Write` on an open handle to `p`: appends at the end of the file. -/
def SysFS.appendFile (fs : SysFS) (p : String) (data : String) : SysFS :=
  { fs with files := (p, ((List.lookup p fs.files).getD "") ++ data) :: fs.files }

/-- `os.RemoveAll d`: removes the directory `d` and everything below it. -/
def SysFS.removeAll (fs : SysFS) (d : String) : SysFS :=
  { dirs := fs.dirs.filter (fun x => ¬ (x = d ∨ (d ++ "/").data.isPrefixOf x.data)),
    files := fs.files.filter (fun kv => ¬ (kv.1 = d ∨ (d ++ "/").data.isPrefixOf kv.1.data)) }

/-- `writeComposeFile` from the source: prepend the YAML document separator
when this is not the first layer (`i > 0`) and the layer carries a
`com.docker.compose.file` annotation, then write the content. The open Go
file handle is modelled by the path `target` it writes to. -/
def writeComposeFile (layer : Descriptor) (i : Nat) (target : String)
    (fs : SysFS) (content : String) : SysFS :=
  let fs1 :=
    if 0 < i ∧ (annGet layer "com.docker.compose.file").isSome then
      fs.appendFile target "\n---\n"
    else fs
  fs1.appendFile target content

/-- `writeEnvFile` from the source: require the
`com.docker.compose.envfile` annotation, else fail; otherwise create the file
and write the content verbatim. Returns the filesystem and an optional error. -/
def writeEnvFile (layer : Descriptor) (localDir : String) (fs : SysFS)
    (content : String) : SysFS × Option String :=
  match annGet layer "com.docker.compose.envfile" with
  | none =>
      (fs, some ("missing annotation com.docker.compose.envfile in layer \""
        ++ layer.digest ++ "\""))
  | some envfilePath =>
      let p := localDir ++ "/" ++ envfilePath
      ((fs.createFile p).appendFile p content, none)

/-- The layer loop of `pullComposeFiles`: for each layer, fetch its content via
the resolver at the digest-qualified reference, then dispatch on the media
type. `resolve` models `resolver.Get` and returns `(content, digest-hex)`;
only the content is used here, as in the source. The optional error in the
result aborts the loop at the failing layer, leaving the filesystem as it was
at that point. -/
def processLayers (resolve : String → Except String (String × String))
    (localDir refStr composeFile : String) :
    List Descriptor → Nat → SysFS → SysFS × Option String
  | [], _, fs => (fs, none)
  | layer :: rest, i, fs =>
    match resolve (refStr ++ "@" ++ layer.digest) with
    | .error e => (fs, some e)
    | .ok (content, _) =>
      if layer.mediaType = ComposeYAMLMediaType then
        if (annGet layer "com.docker.compose.extends").isSome then
          let target := localDir ++ "/" ++ annGetD layer "com.docker.compose.file"
          let fs1 := (fs.createFile target)
          processLayers resolve localDir refStr composeFile rest (i + 1)
            (writeComposeFile layer i target fs1 content)
        else
          processLayers resolve localDir refStr composeFile rest (i + 1)
            (writeComposeFile layer i composeFile fs content)
      else if layer.mediaType = ComposeEnvFileMediaType then
        match writeEnvFile layer localDir fs content with
        | (fs1, some e) => (fs1, some e)
        | (fs1, none) => processLayers resolve localDir refStr composeFile rest (i + 1) fs1
      else
        -- ComposeEmptyConfigMediaType and every unrecognized media type: no-op.
        processLayers resolve localDir refStr composeFile rest (i + 1) fs

/-- `pullComposeFiles` from the source: create the target directory and the
primary `compose.yaml`, validate the artifact type, then run the layer loop.
As in the source, directory and primary-file creation happen before the
validation check. -/
def pullComposeFiles (resolve : String → Except String (String × String))
    (localDir : String) (manifest : Manifest) (refStr : String)
    (fs0 : SysFS) : SysFS × Option String :=
  let fs1 := fs0.mkdirAll localDir
  let composeFile := localDir ++ "/compose.yaml"
  let fs2 := fs1.createFile composeFile
  if (manifest.artifactType ≠ "" ∧ manifest.artifactType ≠ ComposeProjectArtifactType)
      ∨ (manifest.artifactType = "" ∧ manifest.configMediaType ≠ ComposeEmptyConfigMediaType) then
    (fs2, some (refStr ++ " is not a compose project OCI artifact, but " ++ manifest.artifactType))
  else
    processLayers resolve localDir refStr composeFile manifest.layers 0 fs2

/-- The `ociRemoteLoader` receiver state: the `offline` flag and the `known`
reference table (Go map, modelled as an association list, newest first). -/
structure ociRemoteLoader where
  offline : Bool
  known : List (String × String)
deriving DecidableEq, Repr

/-- The UTF-8 byte width of one character, as Go counts string bytes. -/
def charUtf8Size (c : Char) : Nat :=
  if c.toNat < 128 then 1 else if c.toNat < 2048 then 2
  else if c.toNat < 65536 then 3 else 4

/-- Go `len(s)`: the UTF-8 byte length of a string. -/
def goLen (s : String) : Nat :=
  (s.data.map charUtf8Size).sum

/-- Go `strings.HasPrefix`, byte-level; on UTF-8 strings this coincides with
character-level prefixing. -/
def goHasPfx (s pre : String) : Bool :=
  pre.data.isPrefixOf s.data

/-- `Accept` from the source: true iff the path starts with `oci://`. -/
def Accept (path : String) : Bool :=
  goHasPfx path ociPfx

/-- `Dir` from the source: Go map read, `""` when absent. -/
def Dir (g : ociRemoteLoader) (path : String) : String :=
  (List.lookup path g.known).getD ""

/-- The external capabilities `Load` consumes, as oracles:
`envFlag` is `os.Getenv(OCI_REMOTE_ENABLED)`; `parseRef` is
`reference.ParseDockerRef` returning the normalized reference string;
`imageConfigErr` is the error of `storeutil.GetImageConfig`, if any;
`get` is `resolver.Get`, returning the raw content and the descriptor's
digest in hex; `unmarshal` is `json.Unmarshal` into a `v1.Manifest`;
`cacheDirRes` is `cacheDir()`. -/
structure LoadEnv where
  envFlag : String
  parseRef : String → Except String String
  imageConfigErr : Option String
  get : String → Except String (String × String)
  unmarshal : String → Except String Manifest
  cacheDirRes : Except String String

/-- The outcome of one `Load` call: a returned path, a returned error, or a
Go runtime panic (the out-of-range string slice). -/
inductive LoadOutcome where
  | ok (path : String)
  | err (msg : String)
  | panicked
deriving DecidableEq, Repr

/-- Go `path[n:]` for byte index `n`, assuming the cut is on a character
boundary (it always is at `len("oci://")` once the slice is in range). -/
def goSliceFrom (s : String) (n : Nat) : String :=
  ⟨s.data.drop n⟩

/-- `Load` from the source, as a state transformer over the loader state and
the filesystem: feature-flag check, disabled check, offline check, known-table
memo lookup, reference parsing (with Go's unguarded `path[len(OciPrefix):]`
slice, which panics when the path is shorter than the scheme in bytes),
resolution, digest-keyed cache-directory check, manifest unmarshalling,
materialization, and cleanup-on-failure. -/
def Load (env : LoadEnv) (g : ociRemoteLoader) (fs : SysFS) (path : String) :
    LoadOutcome × ociRemoteLoader × SysFS :=
  match ociRemoteLoaderEnabled env.envFlag with
  | .error e => (.err e, g, fs)
  | .ok enabled =>
    if enabled = false then
      (.err ("OCI remote resource is disabled by \"COMPOSE_EXPERIMENTAL_OCI_REMOTE\""), g, fs)
    else if g.offline then
      (.ok "", g, fs)
    else
      match List.lookup path g.known with
      | some localDir => (.ok (localDir ++ "/compose.yaml"), g, fs)
      | none =>
        if goLen path < goLen ociPfx then
          (.panicked, g, fs)
        else
          match env.parseRef (goSliceFrom path (goLen ociPfx)) with
          | .error e => (.err e, g, fs)
          | .ok refStr =>
            match env.imageConfigErr with
            | some e => (.err e, g, fs)
            | none =>
              match env.get refStr with
              | .error e => (.err e, g, fs)
              | .ok (content, digestHex) =>
                match env.cacheDirRes with
                | .error e => (.err ("initializing remote resource cache: " ++ e), g, fs)
                | .ok cache =>
                  let localDir := cache ++ "/" ++ digestHex
                  if fs.dirExists localDir then
                    (.ok (localDir ++ "/compose.yaml"),
                      { g with known := (path, localDir) :: g.known }, fs)
                  else
                    match env.unmarshal content with
                    | .error e => (.err e, g, fs)
                    | .ok manifest =>
                      match pullComposeFiles env.get localDir manifest refStr fs with
                      | (fs1, some e) => (.err e, g, fs1.removeAll localDir)
                      | (fs1, none) =>
                        (.ok (localDir ++ "/compose.yaml"),
                          { g with known := (path, localDir) :: g.known }, fs1)

/-! Helper lemmas shared by the claim proofs. -/

lemma lookup_cons_self (k v : String) (l : List (String × String)) :
    List.lookup k ((k, v) :: l) = some v := by
  simp [List.lookup]

lemma lookup_cons_of_ne {k k' : String} (v : String) (l : List (String × String))
    (h : k ≠ k') : List.lookup k ((k', v) :: l) = List.lookup k l := by
  simp [List.lookup, beq_eq_false_iff_ne.2 h]

lemma removeAll_dirExists (fs : SysFS) (d : String) :
    (fs.removeAll d).dirExists d = false := by
  have hd : d ∉ (fs.removeAll d).dirs := by
    intro hm
    rcases List.mem_filter.1 hm with ⟨-, hp⟩
    simp at hp
  simpa [SysFS.dirExists] using hd

lemma getFile_appendFile_self (fs : SysFS) (p d : String) :
    (fs.appendFile p d).getFile p = some (((List.lookup p fs.files).getD "") ++ d) := by
  simp [SysFS.appendFile, SysFS.getFile, List.lookup]

lemma writeComposeFile_getFile (layer : Descriptor) (i : Nat) (target : String)
    (fs : SysFS) (content : String) :
    (writeComposeFile layer i target fs content).getFile target
      = some ((((List.lookup target fs.files).getD "")
          ++ (if 0 < i ∧ (annGet layer "com.docker.compose.file").isSome
              then "\n---\n" else "")) ++ content) := by
  unfold writeComposeFile
  split
  · simp [SysFS.appendFile, SysFS.getFile, List.lookup]
  · simp [SysFS.appendFile, SysFS.getFile, List.lookup]

/-- A loader environment whose only meaningful datum is the feature-flag
value; all oracle capabilities fail, so any run that consults them errors. -/
def envFlagged (v : String) : LoadEnv :=
  { envFlag := v
    parseRef := fun _ => .error "no parse"
    imageConfigErr := none
    get := fun _ => .error "no network"
    unmarshal := fun _ => .error "no json"
    cacheDirRes := .error "no cache" }

/-- C7: the feature-flag check: an unset environment variable means enabled;
a set value that is not a valid Go boolean makes `Load` fail with the
configuration error wrapping the `strconv.ParseBool` diagnostic; a value that
parses to `false` makes `Load` fail naming the disabling variable. -/
theorem c7_feature_flag :
    ociRemoteLoaderEnabled "" = .ok true
    ∧ (∀ env g fs path, env.envFlag ≠ "" → parseBool env.envFlag = none →
        Load env g fs path
          = (.err ("COMPOSE_EXPERIMENTAL_OCI_REMOTE environment variable expects boolean value: "
              ++ parseBoolErrMsg env.envFlag), g, fs))
    ∧ (∀ env g fs path, parseBool env.envFlag = some false →
        Load env g fs path
          = (.err ("OCI remote resource is disabled by \"COMPOSE_EXPERIMENTAL_OCI_REMOTE\""),
             g, fs)) := by
  refine ⟨rfl, ?_, ?_⟩
  · intro env g fs path hne hp
    unfold Load ociRemoteLoaderEnabled
    simp [hne, hp]
  · intro env g fs path hp
    have hne : env.envFlag ≠ "" := by
      intro h0
      rw [h0] at hp
      simp [parseBool] at hp
    unfold Load ociRemoteLoaderEnabled
    simp [hne, hp]

/-- C7 witness: concrete runs of `Load` with the flag set to a non-boolean
string and to `false`. -/
theorem c7_feature_flag_witness :
    Load (envFlagged "banana") ⟨false, []⟩ ⟨[], []⟩ "oci://r"
      = (.err ("COMPOSE_EXPERIMENTAL_OCI_REMOTE environment variable expects boolean value: "
          ++ parseBoolErrMsg "banana"), ⟨false, []⟩, ⟨[], []⟩)
    ∧ Load (envFlagged "false") ⟨false, []⟩ ⟨[], []⟩ "oci://r"
      = (.err ("OCI remote resource is disabled by \"COMPOSE_EXPERIMENTAL_OCI_REMOTE\""),
         ⟨false, []⟩, ⟨[], []⟩) :=
  ⟨c7_feature_flag.2.1 (envFlagged "banana") ⟨false, []⟩ ⟨[], []⟩ "oci://r"
      (by decide) (by decide),
   c7_feature_flag.2.2 (envFlagged "false") ⟨false, []⟩ ⟨[], []⟩ "oci://r" (by decide)⟩

/-- C1 counterexample: in offline mode with the feature flag explicitly set to
`false`, `Load` on an accepted path does not return the empty string with no
error; it returns the disabled error. The claim's "regardless of the
feature-flag environment variable's state" is false on the code, because the
flag is checked before the offline check. -/
theorem c1_offline_cex :
    (ociRemoteLoader.mk true []).offline = true
    ∧ Accept "oci://r" = true
    ∧ (Load (envFlagged "false") (ociRemoteLoader.mk true []) (SysFS.mk [] []) "oci://r").1
        ≠ LoadOutcome.ok "" :=
  ⟨rfl, by decide, by decide⟩

/-- C1 amended: if the loader is in offline mode and the feature-flag check
passes (variable unset or parsing to `true`), `Load` returns the empty string
with no error and untouched state, for every path and every environment with
that flag value — in particular without invoking the Resolver. When the flag
is invalid or parses to `false`, the corresponding flag error is returned even
in offline mode. -/
theorem c1_offline :
    ∀ env g fs path, g.offline = true →
      ociRemoteLoaderEnabled env.envFlag = .ok true →
      Load env g fs path = (.ok "", g, fs) := by
  intro env g fs path hoff hflag
  unfold Load
  rw [hflag]
  simp [hoff]

/-- C1 witness: a concrete offline run with the flag unset. -/
theorem c1_offline_witness :
    Load (envFlagged "") ⟨true, []⟩ ⟨[], []⟩ "oci://r" = (.ok "", ⟨true, []⟩, ⟨[], []⟩) :=
  c1_offline (envFlagged "") ⟨true, []⟩ ⟨[], []⟩ "oci://r" rfl rfl

/-- A resolver oracle with no reachable registry. -/
def resolveNone : String → Except String (String × String) := fun _ => .error "no network"

lemma pull_reduces_of_valid (resolve : String → Except String (String × String))
    (localDir : String) (manifest : Manifest) (refStr : String) (fs : SysFS)
    (hv : manifest.artifactType = ComposeProjectArtifactType
      ∨ (manifest.artifactType = "" ∧ manifest.configMediaType = ComposeEmptyConfigMediaType)) :
    pullComposeFiles resolve localDir manifest refStr fs
      = processLayers resolve localDir refStr (localDir ++ "/compose.yaml") manifest.layers 0
          ((fs.mkdirAll localDir).createFile (localDir ++ "/compose.yaml")) := by
  have hcp : ComposeProjectArtifactType ≠ "" := by decide
  unfold pullComposeFiles
  rw [if_neg]
  rcases hv with h | ⟨h1, h2⟩
  · rintro (⟨-, hne⟩ | ⟨he, -⟩)
    · exact hne h
    · rw [h] at he
      exact hcp he
  · rintro (⟨hne, -⟩ | ⟨-, hne2⟩)
    · exact hne h1
    · exact hne2 h2

lemma pull_error_of_invalid (resolve : String → Except String (String × String))
    (localDir : String) (manifest : Manifest) (refStr : String) (fs : SysFS)
    (hv : ¬ (manifest.artifactType = ComposeProjectArtifactType
      ∨ (manifest.artifactType = "" ∧ manifest.configMediaType = ComposeEmptyConfigMediaType))) :
    pullComposeFiles resolve localDir manifest refStr fs
      = ((fs.mkdirAll localDir).createFile (localDir ++ "/compose.yaml"),
         some (refStr ++ " is not a compose project OCI artifact, but "
           ++ manifest.artifactType)) := by
  unfold pullComposeFiles
  rw [if_pos]
  by_cases hA : manifest.artifactType = ""
  · exact Or.inr ⟨hA, fun hE => hv (Or.inr ⟨hA, hE⟩)⟩
  · exact Or.inl ⟨hA, fun hCP => hv (Or.inl hCP)⟩

/-- C3: manifest validation succeeds (materialization proceeds to the layer
loop) iff the artifact type is the compose-project artifact type, or the
artifact type is empty and the config media type is the empty-config sentinel;
every other combination stops materialization with the "not a compose project
OCI artifact" error naming the offending artifact type. -/
theorem c3_validation :
    ∀ resolve localDir manifest refStr fs,
    ((manifest.artifactType = ComposeProjectArtifactType
        ∨ (manifest.artifactType = "" ∧ manifest.configMediaType = ComposeEmptyConfigMediaType)) →
      pullComposeFiles resolve localDir manifest refStr fs
        = processLayers resolve localDir refStr (localDir ++ "/compose.yaml") manifest.layers 0
            ((fs.mkdirAll localDir).createFile (localDir ++ "/compose.yaml")))
    ∧ (¬ (manifest.artifactType = ComposeProjectArtifactType
        ∨ (manifest.artifactType = "" ∧ manifest.configMediaType = ComposeEmptyConfigMediaType)) →
      pullComposeFiles resolve localDir manifest refStr fs
        = ((fs.mkdirAll localDir).createFile (localDir ++ "/compose.yaml"),
           some (refStr ++ " is not a compose project OCI artifact, but "
             ++ manifest.artifactType))) := by
  intro resolve localDir manifest refStr fs
  exact ⟨pull_reduces_of_valid resolve localDir manifest refStr fs,
         pull_error_of_invalid resolve localDir manifest refStr fs⟩

/-- C3 witness: one valid manifest (compose-project artifact type) and one
invalid manifest (artifact type `"evil"`), both with no layers. -/
theorem c3_validation_witness :
    pullComposeFiles resolveNone "dir" ⟨ComposeProjectArtifactType, "", []⟩ "r" ⟨[], []⟩
      = processLayers resolveNone "dir" "r" ("dir" ++ "/compose.yaml")
          (Manifest.mk ComposeProjectArtifactType "" []).layers 0
          (((SysFS.mk [] []).mkdirAll "dir").createFile ("dir" ++ "/compose.yaml"))
    ∧ pullComposeFiles resolveNone "dir" ⟨"evil", "", []⟩ "r" ⟨[], []⟩
      = ((((SysFS.mk [] []).mkdirAll "dir").createFile ("dir" ++ "/compose.yaml")),
         some ("r" ++ " is not a compose project OCI artifact, but "
           ++ (Manifest.mk "evil" "" []).artifactType)) :=
  ⟨(c3_validation resolveNone "dir" ⟨ComposeProjectArtifactType, "", []⟩ "r" ⟨[], []⟩).1
      (Or.inl rfl),
   (c3_validation resolveNone "dir" ⟨"evil", "", []⟩ "r" ⟨[], []⟩).2 (by decide)⟩

/-- A resolver oracle for a two-layer artifact under reference `r`. -/
def resolveC2 : String → Except String (String × String) := fun s =>
  if s = "r@d0" then .ok ("AAA", "")
  else if s = "r@d1" then .ok ("BBB", "")
  else .error "unknown"

/-- A compose-YAML layer with no annotations (primary-file layer). -/
def layerPlain : Descriptor := ⟨"d0", ComposeYAMLMediaType, []⟩

/-- A compose-YAML layer marked as an extends layer with a target filename. -/
def layerExt : Descriptor :=
  ⟨"d1", ComposeYAMLMediaType,
   [("com.docker.compose.extends", "true"), ("com.docker.compose.file", "other.yaml")]⟩

/-- C2 counterexample: with an extends layer at position 1 (after a plain
compose-YAML layer at position 0), materialization writes the separator
`\n---\n` before the raw content into the newly created extends file, because
`writeComposeFile` prepends the separator whenever the layer index is positive
and a `file` annotation is present — also for extends targets. So the written
file is not the raw content alone, refuting "with no separator prepended,
regardless of the layer's position". -/
theorem c2_extends_cex :
    (pullComposeFiles resolveC2 "dir" ⟨ComposeProjectArtifactType, "", [layerPlain, layerExt]⟩
        "r" ⟨[], []⟩).2 = none
    ∧ (pullComposeFiles resolveC2 "dir" ⟨ComposeProjectArtifactType, "", [layerPlain, layerExt]⟩
        "r" ⟨[], []⟩).1.getFile "dir/other.yaml" = some ("\n---\n" ++ "BBB")
    ∧ ("\n---\n" ++ "BBB" : String) ≠ "BBB" :=
  ⟨rfl, by decide, by decide⟩

/-- C2 amended: for every compose-YAML layer whose annotations contain the
extends key, materialization writes to a newly created (truncated) file at
`<dir>/<file-annotation-value>` exactly once; the content is the raw layer
content when the layer is at position 0 or lacks the file annotation, but when
its position is positive and the file annotation is present, the separator
`\n---\n` is prepended before the raw content. -/
theorem c2_extends_layer :
    ∀ resolve localDir refStr composeFile layer rest i fs content dh,
      resolve (refStr ++ "@" ++ layer.digest) = .ok (content, dh) →
      layer.mediaType = ComposeYAMLMediaType →
      (annGet layer "com.docker.compose.extends").isSome = true →
      ∃ fs1, processLayers resolve localDir refStr composeFile (layer :: rest) i fs
          = processLayers resolve localDir refStr composeFile rest (i + 1) fs1
        ∧ fs1.getFile (localDir ++ "/" ++ annGetD layer "com.docker.compose.file")
          = some ((if 0 < i ∧ (annGet layer "com.docker.compose.file").isSome
                   then "\n---\n" else "") ++ content) := by
  intro resolve localDir refStr composeFile layer rest i fs content dh hres hmt hext
  refine ⟨writeComposeFile layer i (localDir ++ "/" ++ annGetD layer "com.docker.compose.file")
      (fs.createFile (localDir ++ "/" ++ annGetD layer "com.docker.compose.file")) content,
      ?_, ?_⟩
  · simp only [processLayers]
    rw [hres]
    simp [hmt, hext]
  · rw [writeComposeFile_getFile]
    simp [SysFS.createFile, List.lookup]

/-- C2 witness: the extends layer at position 1 with content `BBB` gets the
separator. -/
theorem c2_extends_layer_witness :
    ∃ fs1, processLayers resolveC2 "dir" "r" "dir/compose.yaml" [layerExt] 1 ⟨[], []⟩
        = processLayers resolveC2 "dir" "r" "dir/compose.yaml" [] (1 + 1) fs1
      ∧ fs1.getFile ("dir" ++ "/" ++ annGetD layerExt "com.docker.compose.file")
        = some ((if 0 < 1 ∧ (annGet layerExt "com.docker.compose.file").isSome
                 then "\n---\n" else "") ++ "BBB") :=
  c2_extends_layer resolveC2 "dir" "r" "dir/compose.yaml" layerExt [] 1 ⟨[], []⟩ "BBB" ""
    rfl rfl rfl

/-- C5: with exactly two compose-YAML layers at positions 0 and 1, neither
marked extends, both carrying a file annotation, and a valid artifact type,
materialization succeeds and the primary `compose.yaml` contains the
position-0 content, the literal separator `\n---\n`, then the position-1
content. Moreover (second conjunct) `writeComposeFile` for a layer at
position 0, or for any layer lacking a file annotation, appends the bare
content with no separator. -/
theorem c5_primary_separator :
    (∀ resolve localDir refStr fs la lb ca cb da db manifest,
      manifest.artifactType = ComposeProjectArtifactType →
      manifest.layers = [la, lb] →
      la.mediaType = ComposeYAMLMediaType →
      lb.mediaType = ComposeYAMLMediaType →
      annGet la "com.docker.compose.extends" = none →
      annGet lb "com.docker.compose.extends" = none →
      (annGet la "com.docker.compose.file").isSome = true →
      (annGet lb "com.docker.compose.file").isSome = true →
      resolve (refStr ++ "@" ++ la.digest) = .ok (ca, da) →
      resolve (refStr ++ "@" ++ lb.digest) = .ok (cb, db) →
      (pullComposeFiles resolve localDir manifest refStr fs).2 = none
      ∧ (pullComposeFiles resolve localDir manifest refStr fs).1.getFile
          (localDir ++ "/compose.yaml") = some (ca ++ "\n---\n" ++ cb))
    ∧ (∀ layer i target fs content,
        (i = 0 ∨ annGet layer "com.docker.compose.file" = none) →
        writeComposeFile layer i target fs content = fs.appendFile target content) := by
  constructor
  · intro resolve localDir refStr fs la lb ca cb da db manifest
      hat hlayers hma hmb hea heb hfa hfb hra hrb
    rw [pull_reduces_of_valid resolve localDir manifest refStr fs (Or.inl hat), hlayers]
    simp [processLayers, hra, hrb, hma, hmb, hea, heb, hfa, hfb, writeComposeFile,
      SysFS.appendFile, SysFS.getFile, SysFS.createFile, SysFS.mkdirAll, List.lookup]
  · intro layer i target fs content h
    unfold writeComposeFile
    rcases h with h0 | hnone
    · subst h0
      simp
    · simp [hnone]

/-- C5 witness: two plain compose-YAML layers with file annotations. -/
def layerFa : Descriptor := ⟨"d0", ComposeYAMLMediaType, [("com.docker.compose.file", "compose.yaml")]⟩

/-- Second plain compose-YAML layer with a file annotation. -/
def layerFb : Descriptor := ⟨"d1", ComposeYAMLMediaType, [("com.docker.compose.file", "compose.yaml")]⟩

/-- C5 witness: a concrete two-layer materialization producing
`AAA\n---\nBBB` in the primary file, plus a concrete no-separator write. -/
theorem c5_primary_separator_witness :
    ((pullComposeFiles resolveC2 "dir" ⟨ComposeProjectArtifactType, "", [layerFa, layerFb]⟩
        "r" ⟨[], []⟩).2 = none
      ∧ (pullComposeFiles resolveC2 "dir" ⟨ComposeProjectArtifactType, "", [layerFa, layerFb]⟩
          "r" ⟨[], []⟩).1.getFile ("dir" ++ "/compose.yaml")
        = some ("AAA" ++ "\n---\n" ++ "BBB"))
    ∧ writeComposeFile layerFa 0 "t" ⟨[], []⟩ "AAA" = SysFS.appendFile ⟨[], []⟩ "t" "AAA" :=
  ⟨c5_primary_separator.1 resolveC2 "dir" "r" ⟨[], []⟩ layerFa layerFb "AAA" "BBB" "" ""
      ⟨ComposeProjectArtifactType, "", [layerFa, layerFb]⟩
      rfl rfl rfl rfl rfl rfl rfl rfl rfl rfl,
   c5_primary_separator.2 layerFa 0 "t" ⟨[], []⟩ "AAA" (Or.inl rfl)⟩

/-- C6: a compose-env-file layer lacking the envfile annotation makes the
layer loop stop at that layer with the explicit missing-annotation error,
leaving the filesystem exactly as it was and never touching the remaining
layers; with the annotation present, the raw content is written verbatim to
`<dir>/<envfile-value>` and the loop continues. -/
theorem c6_envfile :
    (∀ resolve localDir refStr composeFile layer rest i fs content dh,
      resolve (refStr ++ "@" ++ layer.digest) = .ok (content, dh) →
      layer.mediaType = ComposeEnvFileMediaType →
      annGet layer "com.docker.compose.envfile" = none →
      processLayers resolve localDir refStr composeFile (layer :: rest) i fs
        = (fs, some ("missing annotation com.docker.compose.envfile in layer \""
            ++ layer.digest ++ "\"")))
    ∧ (∀ resolve localDir refStr composeFile layer rest i fs content dh p,
      resolve (refStr ++ "@" ++ layer.digest) = .ok (content, dh) →
      layer.mediaType = ComposeEnvFileMediaType →
      annGet layer "com.docker.compose.envfile" = some p →
      ∃ fs1, processLayers resolve localDir refStr composeFile (layer :: rest) i fs
          = processLayers resolve localDir refStr composeFile rest (i + 1) fs1
        ∧ fs1.getFile (localDir ++ "/" ++ p) = some content) := by
  have hne : ¬ (ComposeEnvFileMediaType = ComposeYAMLMediaType) := by decide
  constructor
  · intro resolve localDir refStr composeFile layer rest i fs content dh hres hmt hann
    simp only [processLayers]
    rw [hres]
    simp [hmt, hne, writeEnvFile, hann]
  · intro resolve localDir refStr composeFile layer rest i fs content dh p hres hmt hann
    refine ⟨((fs.createFile (localDir ++ "/" ++ p)).appendFile (localDir ++ "/" ++ p) content),
      ?_, ?_⟩
    · simp only [processLayers]
      rw [hres]
      simp [hmt, hne, writeEnvFile, hann]
    · simp [SysFS.createFile, SysFS.appendFile, SysFS.getFile, List.lookup]

/-- An env-file layer with no annotations at all. -/
def layerEnvBare : Descriptor := ⟨"d0", ComposeEnvFileMediaType, []⟩

/-- An env-file layer naming its target file. -/
def layerEnvNamed : Descriptor :=
  ⟨"d1", ComposeEnvFileMediaType, [("com.docker.compose.envfile", ".env")]⟩

/-- C6 witness: a concrete missing-annotation failure (with a nonempty rest
that is provably never processed) and a concrete verbatim env-file write. -/
theorem c6_envfile_witness :
    processLayers resolveC2 "dir" "r" "dir/compose.yaml" [layerEnvBare, layerPlain] 0 ⟨[], []⟩
      = (⟨[], []⟩, some ("missing annotation com.docker.compose.envfile in layer \""
          ++ layerEnvBare.digest ++ "\""))
    ∧ ∃ fs1, processLayers resolveC2 "dir" "r" "dir/compose.yaml" [layerEnvNamed] 0 ⟨[], []⟩
        = processLayers resolveC2 "dir" "r" "dir/compose.yaml" [] (0 + 1) fs1
      ∧ fs1.getFile ("dir" ++ "/" ++ ".env") = some "BBB" :=
  ⟨c6_envfile.1 resolveC2 "dir" "r" "dir/compose.yaml" layerEnvBare [layerPlain] 0 ⟨[], []⟩
      "AAA" "" rfl rfl rfl,
   c6_envfile.2 resolveC2 "dir" "r" "dir/compose.yaml" layerEnvNamed [] 0 ⟨[], []⟩
      "BBB" "" ".env" rfl rfl rfl⟩

/-- C9 counterexample: a layer with an unrecognized media type is not simply
"no action ... without error": its content is still fetched through the
Resolver before the media-type dispatch, so a fetch failure on such a layer
aborts materialization with an error. Here the single layer has media type
`application/unknown` and the resolver fails, and materialization returns that
error instead of skipping the layer. -/
theorem c9_skip_cex :
    (Descriptor.mk "d9" "application/unknown" []).mediaType ≠ ComposeYAMLMediaType
    ∧ (Descriptor.mk "d9" "application/unknown" []).mediaType ≠ ComposeEnvFileMediaType
    ∧ (Descriptor.mk "d9" "application/unknown" []).mediaType ≠ ComposeEmptyConfigMediaType
    ∧ (pullComposeFiles resolveNone "dir"
        ⟨ComposeProjectArtifactType, "", [⟨"d9", "application/unknown", []⟩]⟩ "r" ⟨[], []⟩).2
        = some "no network" :=
  ⟨by decide, by decide, by decide, rfl⟩

/-- C9 amended: for every layer whose media type is neither compose-YAML nor
compose-env-file (hence also for the empty-config sentinel), once its content
has been fetched successfully the layer loop performs no write and no error
for that layer and continues with the remaining layers on an unchanged
filesystem — so no file for that layer appears in the output directory. The
fetch itself is still performed, and its failure aborts materialization. -/
theorem c9_skip :
    ∀ resolve localDir refStr composeFile layer rest i fs content dh,
      resolve (refStr ++ "@" ++ layer.digest) = .ok (content, dh) →
      layer.mediaType ≠ ComposeYAMLMediaType →
      layer.mediaType ≠ ComposeEnvFileMediaType →
      processLayers resolve localDir refStr composeFile (layer :: rest) i fs
        = processLayers resolve localDir refStr composeFile rest (i + 1) fs := by
  intro resolve localDir refStr composeFile layer rest i fs content dh hres h1 h2
  simp only [processLayers]
  rw [hres]
  simp [h1, h2]

/-- C9 witness: a concrete unrecognized layer whose fetch succeeds is skipped
with the filesystem unchanged. -/
theorem c9_skip_witness :
    processLayers resolveC2 "dir" "r" "dir/compose.yaml"
        [⟨"d0", "application/x-unknown", []⟩] 0 ⟨[], []⟩
      = processLayers resolveC2 "dir" "r" "dir/compose.yaml" [] (0 + 1) ⟨[], []⟩ :=
  c9_skip resolveC2 "dir" "r" "dir/compose.yaml" ⟨"d0", "application/x-unknown", []⟩ [] 0
    ⟨[], []⟩ "AAA" "" rfl (by decide) (by decide)

lemma load_memo_hit (env : LoadEnv) (g : ociRemoteLoader) (fs : SysFS)
    (path localDir : String)
    (hflag : ociRemoteLoaderEnabled env.envFlag = .ok true)
    (hoff : g.offline = false)
    (hkn : List.lookup path g.known = some localDir) :
    Load env g fs path = (.ok (localDir ++ "/compose.yaml"), g, fs) := by
  unfold Load
  rw [hflag]
  simp [hoff, hkn]

lemma c8_leaf_vacuous (env : LoadEnv) (g : ociRemoteLoader) (fs : SysFS) (path : String)
    (out : LoadOutcome)
    (hvac : ∀ r, g.offline = false → out ≠ .ok r) :
    (∀ r, g.offline = false → out = .ok r →
      ∀ env2, env2.envFlag = env.envFlag → Load env2 g fs path = (.ok r, g, fs))
    ∧ (∀ q, List.lookup q g.known ≠ List.lookup q g.known →
        q = path ∧ ∃ d, List.lookup q g.known = some d ∧ out = .ok (d ++ "/compose.yaml"))
    ∧ (∀ q d, List.lookup q g.known = some d → List.lookup q g.known = some d) := by
  refine ⟨?_, ?_, fun q d hd => hd⟩
  · intro r hoff hout
    exact absurd hout (hvac r hoff)
  · intro q hq
    exact absurd rfl hq

lemma c8_leaf_insert (env : LoadEnv) (g : ociRemoteLoader) (fsX : SysFS)
    (path localDir : String)
    (hflag : ociRemoteLoaderEnabled env.envFlag = .ok true)
    (hkn : List.lookup path g.known = none) :
    (∀ r, g.offline = false →
      LoadOutcome.ok (localDir ++ "/compose.yaml") = LoadOutcome.ok r →
      ∀ env2, env2.envFlag = env.envFlag →
        Load env2 { g with known := (path, localDir) :: g.known } fsX path
          = (.ok r, { g with known := (path, localDir) :: g.known }, fsX))
    ∧ (∀ q, List.lookup q ({ g with known := (path, localDir) :: g.known } :
          ociRemoteLoader).known ≠ List.lookup q g.known →
        q = path ∧ ∃ d, List.lookup q ({ g with known := (path, localDir) :: g.known } :
          ociRemoteLoader).known = some d
          ∧ LoadOutcome.ok (localDir ++ "/compose.yaml") = LoadOutcome.ok (d ++ "/compose.yaml"))
    ∧ (∀ q d, List.lookup q g.known = some d →
        List.lookup q ({ g with known := (path, localDir) :: g.known } :
          ociRemoteLoader).known = some d) := by
  refine ⟨?_, ?_, ?_⟩
  · intro r hoff hout env2 hflag2
    have hr : localDir ++ "/compose.yaml" = r := by
      simpa using hout
    subst hr
    exact load_memo_hit env2 _ fsX path localDir (by rw [hflag2]; exact hflag) hoff
      (lookup_cons_self path localDir g.known)
  · intro q hq
    by_cases hqp : q = path
    · subst hqp
      exact ⟨rfl, localDir, lookup_cons_self q localDir g.known, rfl⟩
    · exact absurd (lookup_cons_of_ne localDir g.known hqp) hq
  · intro q d hd
    by_cases hqp : q = path
    · subst hqp
      rw [hkn] at hd
      cases hd
    · rw [lookup_cons_of_ne localDir g.known hqp]
      exact hd

/-- C8: memoization of `Load`. If a `Load` call returns successfully while
online, then a second call with the same path (under any environment with the
same flag value, hence independently of the Resolver) is a pure memo hit: it
returns the identical path and changes neither the loader state nor the
filesystem. Moreover any known-table change made by a `Load` call is exactly
an insertion at the called path whose recorded directory is the one named in
the returned path (entries appear only on success), and existing entries are
never removed or overwritten. -/
theorem c8_memoization :
    ∀ env g fs path out g2 fs2,
      Load env g fs path = (out, g2, fs2) →
      (∀ r, g.offline = false → out = .ok r →
        ∀ env2, env2.envFlag = env.envFlag → Load env2 g2 fs2 path = (.ok r, g2, fs2))
      ∧ (∀ q, List.lookup q g2.known ≠ List.lookup q g.known →
          q = path ∧ ∃ d, List.lookup q g2.known = some d ∧ out = .ok (d ++ "/compose.yaml"))
      ∧ (∀ q d, List.lookup q g.known = some d → List.lookup q g2.known = some d) := by
  intro env g fs path out g2 fs2 h
  obtain ⟨goff, gknown⟩ := g
  rcases hflag : ociRemoteLoaderEnabled env.envFlag with e | enabled
  · unfold Load at h
    rw [hflag] at h
    simp only [Prod.mk.injEq] at h
    obtain ⟨h1, h2, h3⟩ := h
    subst h1; subst h2; subst h3
    exact c8_leaf_vacuous env ⟨goff, gknown⟩ fs path _ (fun r _ => by simp)
  · by_cases hen : enabled = false
    · subst hen
      unfold Load at h
      rw [hflag] at h
      simp only [Prod.mk.injEq, Bool.false_eq_true, Bool.true_eq_false, eq_self_iff_true,
              if_true, if_false, ite_true, ite_false] at h
      obtain ⟨h1, h2, h3⟩ := h
      subst h1; subst h2; subst h3
      exact c8_leaf_vacuous env ⟨goff, gknown⟩ fs path _ (fun r _ => by simp)
    · have hent : enabled = true := by
        revert hen
        cases enabled <;> simp
      subst hent
      cases goff with
      | true =>
        unfold Load at h
        rw [hflag] at h
        simp only [Prod.mk.injEq, Bool.false_eq_true, Bool.true_eq_false, eq_self_iff_true,
              if_true, if_false, ite_true, ite_false] at h
        obtain ⟨h1, h2, h3⟩ := h
        subst h1; subst h2; subst h3
        exact c8_leaf_vacuous env ⟨true, gknown⟩ fs path _ (fun r hoff => by simp at hoff)
      | false =>
        rcases hkn : List.lookup path gknown with _ | localDir
        · by_cases hlen : goLen path < goLen ociPfx
          · unfold Load at h
            rw [hflag] at h
            simp only [hkn, if_pos hlen, Prod.mk.injEq, Bool.false_eq_true, Bool.true_eq_false, eq_self_iff_true,
              if_true, if_false, ite_true, ite_false] at h
            obtain ⟨h1, h2, h3⟩ := h
            subst h1; subst h2; subst h3
            exact c8_leaf_vacuous env ⟨false, gknown⟩ fs path _ (fun r _ => by simp)
          · rcases hpr : env.parseRef (goSliceFrom path (goLen ociPfx)) with e | refStr
            · unfold Load at h
              rw [hflag] at h
              simp only [hkn, if_neg hlen, hpr, Prod.mk.injEq, Bool.false_eq_true, Bool.true_eq_false, eq_self_iff_true,
              if_true, if_false, ite_true, ite_false] at h
              obtain ⟨h1, h2, h3⟩ := h
              subst h1; subst h2; subst h3
              exact c8_leaf_vacuous env ⟨false, gknown⟩ fs path _ (fun r _ => by simp)
            · rcases hic : env.imageConfigErr with _ | e
              · rcases hget : env.get refStr with e | cd
                · unfold Load at h
                  rw [hflag] at h
                  simp only [hkn, if_neg hlen, hpr, hic, hget, Prod.mk.injEq, Bool.false_eq_true, Bool.true_eq_false, eq_self_iff_true,
              if_true, if_false, ite_true, ite_false] at h
                  obtain ⟨h1, h2, h3⟩ := h
                  subst h1; subst h2; subst h3
                  exact c8_leaf_vacuous env ⟨false, gknown⟩ fs path _ (fun r _ => by simp)
                · obtain ⟨content, digestHex⟩ := cd
                  rcases hcache : env.cacheDirRes with e | cache
                  · unfold Load at h
                    rw [hflag] at h
                    simp only [hkn, if_neg hlen, hpr, hic, hget, hcache,
                      Prod.mk.injEq, Bool.false_eq_true, Bool.true_eq_false, eq_self_iff_true,
              if_true, if_false, ite_true, ite_false] at h
                    obtain ⟨h1, h2, h3⟩ := h
                    subst h1; subst h2; subst h3
                    exact c8_leaf_vacuous env ⟨false, gknown⟩ fs path _ (fun r _ => by simp)
                  · rcases hde : fs.dirExists (cache ++ "/" ++ digestHex) with _ | _
                    · -- cold cache: materialize
                      rcases hunm : env.unmarshal content with e | manifest
                      · unfold Load at h
                        rw [hflag] at h
                        simp only [hkn, if_neg hlen, hpr, hic, hget, hcache, hde,
                          hunm, Prod.mk.injEq, Bool.false_eq_true, Bool.true_eq_false, eq_self_iff_true,
              if_true, if_false, ite_true, ite_false] at h
                        obtain ⟨h1, h2, h3⟩ := h
                        subst h1; subst h2; subst h3
                        exact c8_leaf_vacuous env ⟨false, gknown⟩ fs path _
                          (fun r _ => by simp)
                      · rcases hpull : pullComposeFiles env.get (cache ++ "/" ++ digestHex)
                            manifest refStr fs with ⟨fs1, oe⟩
                        rcases oe with _ | e
                        · -- materialization succeeded: entry inserted
                          unfold Load at h
                          rw [hflag] at h
                          simp only [hkn, if_neg hlen, hpr, hic, hget, hcache, hde,
                            hunm, hpull, Prod.mk.injEq, Bool.false_eq_true, Bool.true_eq_false, eq_self_iff_true,
              if_true, if_false, ite_true, ite_false] at h
                          obtain ⟨h1, h2, h3⟩ := h
                          subst h1; subst h2; subst h3
                          exact c8_leaf_insert env ⟨false, gknown⟩ fs1 path
                            (cache ++ "/" ++ digestHex) hflag hkn
                        · unfold Load at h
                          rw [hflag] at h
                          simp only [hkn, if_neg hlen, hpr, hic, hget, hcache, hde,
                            hunm, hpull, Prod.mk.injEq, Bool.false_eq_true, Bool.true_eq_false, eq_self_iff_true,
              if_true, if_false, ite_true, ite_false] at h
                          obtain ⟨h1, h2, h3⟩ := h
                          subst h1; subst h2; subst h3
                          exact c8_leaf_vacuous env ⟨false, gknown⟩
                            (fs1.removeAll (cache ++ "/" ++ digestHex)) path _
                            (fun r _ => by simp)
                    · -- warm on-disk cache: entry inserted without materialization
                      unfold Load at h
                      rw [hflag] at h
                      simp only [hkn, if_neg hlen, hpr, hic, hget, hcache, hde,
                        Prod.mk.injEq, Bool.false_eq_true, Bool.true_eq_false, eq_self_iff_true,
              if_true, if_false, ite_true, ite_false] at h
                      obtain ⟨h1, h2, h3⟩ := h
                      subst h1; subst h2; subst h3
                      exact c8_leaf_insert env ⟨false, gknown⟩ fs path
                        (cache ++ "/" ++ digestHex) hflag hkn
              · unfold Load at h
                rw [hflag] at h
                simp only [hkn, if_neg hlen, hpr, hic, Prod.mk.injEq, Bool.false_eq_true, Bool.true_eq_false, eq_self_iff_true,
              if_true, if_false, ite_true, ite_false] at h
                obtain ⟨h1, h2, h3⟩ := h
                subst h1; subst h2; subst h3
                exact c8_leaf_vacuous env ⟨false, gknown⟩ fs path _ (fun r _ => by simp)
        · -- memo hit already
          have hl := load_memo_hit env ⟨false, gknown⟩ fs path localDir hflag rfl hkn
          rw [hl] at h
          simp only [Prod.mk.injEq] at h
          obtain ⟨h1, h2, h3⟩ := h
          subst h1; subst h2; subst h3
          refine ⟨?_, ?_, fun q d hd => hd⟩
          · intro r hoff hout env2 hflag2
            have hr : localDir ++ "/compose.yaml" = r := by
              simpa using hout
            subst hr
            exact load_memo_hit env2 ⟨false, gknown⟩ fs path localDir
              (by rw [hflag2]; exact hflag) rfl hkn
          · intro q hq
            exact absurd rfl hq

/-- A manifest with a valid artifact type and no layers. -/
def mC8 : Manifest := ⟨ComposeProjectArtifactType, "", []⟩

/-- A loader environment that resolves `oci://r` to the empty project `mC8`. -/
def envC8 : LoadEnv :=
  { envFlag := ""
    parseRef := fun _ => .ok "r"
    imageConfigErr := none
    get := fun s => if s = "r" then .ok ("M", "abc") else .error "unknown"
    unmarshal := fun s => if s = "M" then .ok mC8 else .error "bad json"
    cacheDirRes := .ok "cache" }

/-- C8 witness: after a concrete successful `Load` of `oci://r`, the second
call is a memo hit returning the identical path with unchanged state. -/
theorem c8_memoization_witness :
    Load envC8 ⟨false, [("oci://r", "cache/abc")]⟩
        ⟨["cache/abc"], [("cache/abc/compose.yaml", "")]⟩ "oci://r"
      = (.ok "cache/abc/compose.yaml", ⟨false, [("oci://r", "cache/abc")]⟩,
         ⟨["cache/abc"], [("cache/abc/compose.yaml", "")]⟩) :=
  (c8_memoization envC8 ⟨false, []⟩ ⟨[], []⟩ "oci://r" (.ok "cache/abc/compose.yaml")
      ⟨false, [("oci://r", "cache/abc")]⟩
      ⟨["cache/abc"], [("cache/abc/compose.yaml", "")]⟩ (by decide)).1
    "cache/abc/compose.yaml" rfl rfl envC8 rfl

/-- C4: when a `Load` run reaches materialization (flag enabled, online, no
memo entry, reference parsed and resolved, cache directory obtained, no
on-disk directory yet, manifest unmarshalled) and `pullComposeFiles` fails for
any reason, `Load` removes the target directory and propagates the original
error with the loader state unchanged: afterwards the target directory does
not exist and the known-table still has no entry for the path, so a subsequent
`Load` re-runs materialization from scratch instead of treating the cache as
warm. -/
theorem c4_cleanup :
    ∀ env g fs path refStr content digestHex cache manifest fs1 e,
      ociRemoteLoaderEnabled env.envFlag = .ok true →
      g.offline = false →
      List.lookup path g.known = none →
      ¬ goLen path < goLen ociPfx →
      env.parseRef (goSliceFrom path (goLen ociPfx)) = .ok refStr →
      env.imageConfigErr = none →
      env.get refStr = .ok (content, digestHex) →
      env.cacheDirRes = .ok cache →
      fs.dirExists (cache ++ "/" ++ digestHex) = false →
      env.unmarshal content = .ok manifest →
      pullComposeFiles env.get (cache ++ "/" ++ digestHex) manifest refStr fs = (fs1, some e) →
      Load env g fs path = (.err e, g, fs1.removeAll (cache ++ "/" ++ digestHex))
      ∧ (fs1.removeAll (cache ++ "/" ++ digestHex)).dirExists (cache ++ "/" ++ digestHex)
          = false := by
  intro env g fs path refStr content digestHex cache manifest fs1 e
  intro hflag hoff hkn hlen hparse hicfg hget hcache hdir hunm hpull
  refine ⟨?_, removeAll_dirExists fs1 (cache ++ "/" ++ digestHex)⟩
  unfold Load
  rw [hflag]
  simp [hoff, hkn, hlen, hparse, hicfg, hget, hcache, hdir, hunm, hpull]

/-- A manifest whose only layer is an env-file layer with no annotations, so
materialization fails on it. -/
def mC4 : Manifest := ⟨ComposeProjectArtifactType, "", [layerEnvBare]⟩

/-- A full loader environment that resolves `oci://r` to `mC4`. -/
def envC4 : LoadEnv :=
  { envFlag := ""
    parseRef := fun _ => .ok "r"
    imageConfigErr := none
    get := fun s => if s = "r" then .ok ("M", "abc") else resolveC2 s
    unmarshal := fun s => if s = "M" then .ok mC4 else .error "bad json"
    cacheDirRes := .ok "cache" }

/-- C4 witness: a concrete failed materialization removes `cache/abc`. -/
theorem c4_cleanup_witness :
    Load envC4 ⟨false, []⟩ ⟨[], []⟩ "oci://r"
      = (.err ("missing annotation com.docker.compose.envfile in layer \"" ++ "d0" ++ "\""),
         ⟨false, []⟩,
         (SysFS.mk ["cache/abc"] [("cache/abc/compose.yaml", "")]).removeAll
           ("cache" ++ "/" ++ "abc"))
    ∧ ((SysFS.mk ["cache/abc"] [("cache/abc/compose.yaml", "")]).removeAll
        ("cache" ++ "/" ++ "abc")).dirExists ("cache" ++ "/" ++ "abc") = false :=
  c4_cleanup envC4 ⟨false, []⟩ ⟨[], []⟩ "oci://r" "r" "M" "abc" "cache" mC4
    (SysFS.mk ["cache/abc"] [("cache/abc/compose.yaml", "")])
    ("missing annotation com.docker.compose.envfile in layer \"" ++ "d0" ++ "\"")
    rfl rfl rfl (by decide) rfl rfl rfl rfl rfl rfl (by decide)

lemma accept_goLen (path : String) (h : Accept path = true) :
    goLen ociPfx ≤ goLen path := by
  have hp : ociPfx.data <+: path.data := List.isPrefixOf_iff_prefix.1 h
  obtain ⟨t, ht⟩ := hp
  unfold goLen
  rw [← ht, List.map_append, List.sum_append]
  exact Nat.le_add_right _ _

lemma load_no_panic (env : LoadEnv) (g : ociRemoteLoader) (fs : SysFS) (path : String)
    (hlen : ¬ goLen path < goLen ociPfx) :
    (Load env g fs path).1 ≠ LoadOutcome.panicked := by
  unfold Load
  repeat' split
  all_goals first
  | (simp; done)
  | (exfalso; omega)
  | (simp only []; (repeat' split) <;> simp)

/-- C10: `Load` slices its path argument at the scheme-prefix byte length
before any validation; on a path shorter than the scheme (in bytes) that
reaches the slice (flag enabled, online, not memoized — necessarily a path
`Accept` rejects), the slice is out of range and `Load` panics instead of
returning an error. Under the precondition `Accept path = true` the slice is
in range and `Load` never panics. -/
theorem c10_slice :
    (∀ env g fs path,
      ociRemoteLoaderEnabled env.envFlag = .ok true →
      g.offline = false →
      List.lookup path g.known = none →
      goLen path < goLen ociPfx →
      (Load env g fs path).1 = LoadOutcome.panicked)
    ∧ (∀ env g fs path, Accept path = true →
      (Load env g fs path).1 ≠ LoadOutcome.panicked) := by
  constructor
  · intro env g fs path hflag hoff hkn hlen
    unfold Load
    rw [hflag]
    simp [hoff, hkn, hlen]
  · intro env g fs path hacc
    exact load_no_panic env g fs path (Nat.not_lt.2 (accept_goLen path hacc))

/-- C10 witness: the five-byte path `"oci:/"` panics; the accepted path
`"oci://r"` does not. -/
theorem c10_slice_witness :
    (Load (envFlagged "") ⟨false, []⟩ ⟨[], []⟩ "oci:/").1 = LoadOutcome.panicked
    ∧ (Load (envFlagged "") ⟨false, []⟩ ⟨[], []⟩ "oci://r").1 ≠ LoadOutcome.panicked :=
  ⟨c10_slice.1 (envFlagged "") ⟨false, []⟩ ⟨[], []⟩ "oci:/" rfl rfl rfl (by decide),
   c10_slice.2 (envFlagged "") ⟨false, []⟩ ⟨[], []⟩ "oci://r" (by decide)⟩

end OciRemote
